import Mathlib

/-!
SafeDrive backend (`server.js`): ingestion and query service.

A shallow embedding of the request handlers of `server.js`:

* JavaScript values are the flat type `JsVal`; a number is the rational it
  denotes (no `NaN`, no infinities); `getStats` adds and divides exactly,
  `getStatsIEEE` rounds every sum and the quotient as doubles do;
* a parsed JSON body, a stored record and a JSON response object are all
  property lists `Obj`;
* the handlers are pure functions of the request, of the clock
  (`Date.now()`), of the random source (`Math.random().toString(36)`) and of
  the outcome of the store calls they await.
-/

namespace SafeDrive

/-! JavaScript values -/

/-- A JavaScript value as it occurs in a request body, a stored record or a
response. `object` stands for any nested object or array, named by its JSON
text; `date` is a `Date` object holding milliseconds since the epoch. -/
inductive JsVal where
  | undefined
  | null
  | bool (b : Bool)
  | num (x : ℚ)
  | str (s : String)
  | date (ms : Int)
  | object (json : String)
  deriving DecidableEq

/-- The `typeof` operator. -/
def typeof : JsVal → String
  | .undefined => "undefined"
  | .null => "object"
  | .bool _ => "boolean"
  | .num _ => "number"
  | .str _ => "string"
  | .date _ => "object"
  | .object _ => "object"

/-- Truthiness (`ToBoolean`): `undefined`, `null`, `false`, `0` and `''` are
falsy, everything else is truthy. -/
def truthy : JsVal → Bool
  | .undefined => false
  | .null => false
  | .bool b => b
  | .num x => decide (x ≠ 0)
  | .str s => decide (s ≠ "")
  | .date _ => true
  | .object _ => true

/-- The operator `a || b`. -/
def jsOr (a b : JsVal) : JsVal := if truthy a then a else b

/-- An object: its properties in insertion order. -/
abbrev Obj := List (String × JsVal)

/-- Property read `o.k` (or `o['k']`): `undefined` when `o` has no property `k`. -/
def Obj.get (o : Obj) (k : String) : JsVal :=
  match o.lookup k with
  | some v => v
  | none => .undefined

/-- Property write `o.k = v`: replaces the value of an existing property in
place, appends a new property otherwise. -/
def Obj.set : Obj → String → JsVal → Obj
  | [], k, v => [(k, v)]
  | (k', v') :: rest, k, v =>
    if k' = k then (k, v) :: rest else (k', v') :: Obj.set rest k v

/-! Configuration (`server.js` line 81) -/

/-- The configured secret,
`API_KEY = process.env.SAFEDRIVE_API_KEY || "safedrive_secret_key"`; the
argument is the environment variable (`none` when unset). -/
def API_KEY (envKey : Option String) : String :=
  match envKey with
  | some s => if s ≠ "" then s else "safedrive_secret_key"
  | none => "safedrive_secret_key"

/-! Input validation (`server.js` lines 84-97) -/

/-- The validator `isValidSensorData(data)`. -/
def isValidSensorData (data : Obj) : Bool :=
  decide (typeof (data.get "alcohol") = "number") &&
  decide (typeof (data.get "vibration") = "number") &&
  decide (typeof (data.get "distance") = "number") &&
  decide (typeof (data.get "seatbelt") = "boolean") &&
  decide (typeof (data.get "impact") = "number") &&
  (decide (data.get "lat" = .undefined) || decide (typeof (data.get "lat") = "number")) &&
  (decide (data.get "lng" = .undefined) || decide (typeof (data.get "lng") = "number")) &&
  (decide (data.get "lcd_display" = .undefined) ||
    decide (typeof (data.get "lcd_display") = "string"))

/-- The validator `isValidAccidentData(data)`, which delegates to the sensor check. -/
def isValidAccidentData (data : Obj) : Bool :=
  isValidSensorData data

/-! API key middleware (`server.js` lines 100-106) -/

/-- The parts of an HTTP request the write handlers read. `apiKeyHeader` is
`req.headers['x-api-key']` (`none` when the header was not sent; a header may
be sent with an empty value), `apiKeyQuery` is `req.query.api_key` (a string,
`undefined`, or a nested value for `api_key[]=...`), `body` is the parsed JSON
body. -/
structure Request where
  apiKeyHeader : Option String
  apiKeyQuery : JsVal
  body : Obj

/-- The value `req.headers['x-api-key']` as a JavaScript value. -/
def Request.headerVal (req : Request) : JsVal :=
  match req.apiKeyHeader with
  | some s => .str s
  | none => .undefined

/-- The credential the middleware reads:
`const key = req.headers['x-api-key'] || req.query.api_key`. -/
def presentedKey (req : Request) : JsVal :=
  jsOr req.headerVal req.apiKeyQuery

/-- The middleware `requireApiKey`: `true` when `next()` is called, `false` when the
middleware answers 401 (`!key || key !== API_KEY`). -/
def requireApiKey (envKey : Option String) (req : Request) : Bool :=
  let key := presentedKey req
  if !(truthy key) || decide (key ≠ .str (API_KEY envKey)) then false else true

/-! Responses -/

/-- A JSON response body: an object or an array of objects. -/
inductive Body where
  | object (o : Obj)
  | array (rows : List Obj)
  deriving DecidableEq

/-- An HTTP response: `res.json(b)` is status 200, `res.status(c).json(b)` is
status `c`. -/
structure Response where
  status : Nat
  body : Body
  deriving DecidableEq

/-- Field `k` of an object body (`undefined` for an array body). -/
def Body.get (b : Body) (k : String) : JsVal :=
  match b with
  | .object o => o.get k
  | .array _ => .undefined

/-- The `id` values of the rows of an array body, in order. -/
def Body.ids (b : Body) : List JsVal :=
  match b with
  | .object _ => []
  | .array rows => rows.map (fun r => r.get "id")

/-! The persistence store -/

/-- Modelled from the spec: the PersistenceStore behind `SensorDataModel` and
`AccidentEventModel` (`./models/SensorData` and `./models/AccidentEvent` are
not part of the sources). It holds "durable collections of SensorReading and
AccidentEvent records" and "supports insert, find-one,
find-all-with-filter/order/limit". Both collections are kept in creation
order, oldest first. `nextId` is the next store-assigned sensor id ("id
(store-assigned, monotonically creation-ordered)"). `failure` is `some msg`
while the store is unavailable: every operation then throws `msg`.
`insertAttempts` counts the insert calls made so far, successful or not. -/
structure Store where
  sensors : List Obj
  accidents : List Obj
  nextId : Nat
  failure : Option String
  insertAttempts : Nat
  deriving DecidableEq

/-- Modelled from the spec: `SensorDataModel.create(data)`, the insert of a
SensorReading. The store assigns the id and returns the stored record. -/
def Store.createSensor (st : Store) (data : Obj) : Except String Obj × Store :=
  match st.failure with
  | some msg => (.error msg, { st with insertAttempts := st.insertAttempts + 1 })
  | none =>
    let entry := data.set "id" (.num st.nextId)
    (.ok entry, { st with sensors := st.sensors ++ [entry]
                          nextId := st.nextId + 1
                          insertAttempts := st.insertAttempts + 1 })

/-- Modelled from the spec: `AccidentEventModel.create(data)`, the insert of
an AccidentEvent, whose id is "assigned before persistence (not
store-assigned)". -/
def Store.createAccident (st : Store) (data : Obj) : Except String Obj × Store :=
  match st.failure with
  | some msg => (.error msg, { st with insertAttempts := st.insertAttempts + 1 })
  | none =>
    (.ok data, { st with accidents := st.accidents ++ [data]
                         insertAttempts := st.insertAttempts + 1 })

/-- The SQL test `IS NOT NULL` on a column of a record (`[Op.ne]: null`). -/
def notNull (v : JsVal) : Bool :=
  !(decide (v = .null) || decide (v = .undefined))

/-- The filter `where: { lat: { [Op.ne]: null }, lng: { [Op.ne]: null } }`. -/
def hasPosition (r : Obj) : Bool :=
  notNull (r.get "lat") && notNull (r.get "lng")

/-- Modelled from the spec: `AccidentEventModel.findAll()`. -/
def Store.findAllAccidents (st : Store) : Except String (List Obj) :=
  match st.failure with
  | some msg => .error msg
  | none => .ok st.accidents

/-- Modelled from the spec: `SensorDataModel.findAll()`. -/
def Store.findAllSensors (st : Store) : Except String (List Obj) :=
  match st.failure with
  | some msg => .error msg
  | none => .ok st.sensors

/-- Modelled from the spec: `SensorDataModel.findOne({ order: [['createdAt',
'DESC']] })`, the most recently created reading, `none` (JavaScript `null`)
when there is none. -/
def Store.findLatestSensor (st : Store) : Except String (Option Obj) :=
  match st.failure with
  | some msg => .error msg
  | none => .ok st.sensors.getLast?

/-- Modelled from the spec: `AccidentEventModel.findAll({ where: lat and lng
not null })`. -/
def Store.findAccidentsWithPosition (st : Store) : Except String (List Obj) :=
  match st.failure with
  | some msg => .error msg
  | none => .ok (st.accidents.filter hasPosition)

/-- Modelled from the spec: `AccidentEventModel.findAll({ order:
[['createdAt', 'DESC']] })`. -/
def Store.findAccidentsNewestFirst (st : Store) : Except String (List Obj) :=
  match st.failure with
  | some msg => .error msg
  | none => .ok st.accidents.reverse

/-- Modelled from the spec: `SensorDataModel.findOne({ order: [['createdAt',
'DESC']], where: lat and lng not null })`. -/
def Store.findLatestSensorWithPosition (st : Store) : Except String (Option Obj) :=
  match st.failure with
  | some msg => .error msg
  | none => .ok (st.sensors.filter hasPosition).getLast?

/-! Read handlers (`server.js` lines 116-255). Each handler is a function of
the outcome of the store queries it awaits: `.ok` is the resolved value,
`.error msg` a query that threw. `now` is `Date.now()` and `iso` is
`Date.prototype.toISOString`, left uninterpreted. -/

/-- The numeric value of an operand of `Math.max` or of `+`. Only numbers are
modelled: any other operand is coerced by JavaScript (to `NaN`, to a string,
or through `ToNumber`), which is outside this embedding (`none`). -/
def asNumber : JsVal → Option ℚ
  | .num x => some x
  | _ => none

/-- The numeric values of a list of operands, `none` when one of them is
not a number. -/
def asNumbers : List JsVal → Option (List ℚ)
  | [] => some []
  | v :: vs =>
    match asNumber v, asNumbers vs with
    | some x, some xs => some (x :: xs)
    | _, _ => none

/-- The call `Math.max(...vs)`: every argument a number and at least one
argument; `Math.max()` is `-Infinity`, which is not a rational. -/
def mathMax (vs : List JsVal) : Option ℚ :=
  match asNumbers vs with
  | some (x :: rest) => some (rest.foldl max x)
  | _ => none

/-- The reduction `accidents.reduce((sum, a) => sum + (a[field] || 0), 0)`. -/
def sumField (field : String) (accidents : List Obj) : Option ℚ :=
  accidents.foldlM
    (fun sum a => (asNumber (jsOr (a.get field) (.num 0))).map (fun x => sum + x)) 0

/-- The mock statistics of `GET /api/stats`. -/
def statsFallback : Body :=
  .object [("total_accidents", .num 5), ("max_alcohol", .num 0.8),
    ("avg_alcohol", .num 0.3), ("max_impact", .num 0.9),
    ("seatbelt_violations", .num 2), ("total_sensor_points", .num 120)]

/-- The handler of `GET /api/stats` (lines 116-144), the sum and the quotient
of `avg_alcohol` taken in exact arithmetic. `none` when a stored value lies
outside the modelled numeric fragment (see `asNumber`). -/
def getStats (accidentsQ sensorsQ : Except String (List Obj)) : Option Response :=
  match accidentsQ with
  | .error _ => some ⟨200, statsFallback⟩
  | .ok accidents =>
    match sensorsQ with
    | .error _ => some ⟨200, statsFallback⟩
    | .ok sensors => do
      let max_alcohol ←
        if accidents.length > 0 then
          mathMax (accidents.map (fun a => jsOr (a.get "alcohol") (.num 0)))
        else some 0
      let avg_alcohol ←
        if accidents.length > 0 then
          (sumField "alcohol" accidents).map (fun s => s / (accidents.length : ℚ))
        else some 0
      let max_impact ←
        if accidents.length > 0 then
          mathMax (accidents.map (fun a => jsOr (a.get "impact") (.num 0)))
        else some 0
      some ⟨200, .object [("total_accidents", .num accidents.length),
        ("max_alcohol", .num max_alcohol),
        ("avg_alcohol", .num avg_alcohol),
        ("max_impact", .num max_impact),
        ("seatbelt_violations",
          .num (accidents.filter (fun a => decide (a.get "seatbelt" = .bool false))).length),
        ("total_sensor_points", .num sensors.length)]⟩

/-- The mock reading of `GET /api/sensor`. -/
def sensorFallback (iso : Int → String) (now : Nat) : Body :=
  .object [("id", .num 1), ("alcohol", .num 0.05), ("vibration", .num 0.2),
    ("distance", .num 150), ("seatbelt", .bool true), ("impact", .num 0.1),
    ("heart_rate", .num 75), ("lcd_display", .str "SYSTEM OK"),
    ("timestamp", .str (iso now))]

/-- The handler of `GET /api/sensor` (lines 147-171). -/
def getLatestSensor (iso : Int → String) (now : Nat)
    (latestQ : Except String (Option Obj)) : Response :=
  match latestQ with
  | .ok (some latest) => ⟨200, .object latest⟩
  | .ok none => ⟨200, sensorFallback iso now⟩
  | .error _ => ⟨200, sensorFallback iso now⟩

/-- The mock points of `GET /api/map`. -/
def mapFallback (iso : Int → String) (now : Nat) : Body :=
  .array [
    [("id", .str "abc123"), ("lat", .num 5.6545), ("lng", .num (-0.1869)),
      ("timestamp", .str (iso ((now : Int) - 86400000)))],
    [("id", .str "def456"), ("lat", .num 5.6540), ("lng", .num (-0.1875)),
      ("timestamp", .str (iso ((now : Int) - 172800000)))],
    [("id", .str "ghi789"), ("lat", .num 5.6550), ("lng", .num (-0.1880)),
      ("timestamp", .str (iso ((now : Int) - 259200000)))]]

/-- The handler of `GET /api/map` (lines 174-192). -/
def getMapPoints (iso : Int → String) (now : Nat)
    (accidentsQ : Except String (List Obj)) : Response :=
  match accidentsQ with
  | .ok accidents =>
    ⟨200, .array (accidents.map (fun e =>
      [("id", e.get "id"), ("lat", e.get "lat"), ("lng", e.get "lng"),
        ("timestamp", e.get "timestamp")]))⟩
  | .error _ => ⟨200, mapFallback iso now⟩

/-- The mock records of `GET /api/accidents`. -/
def accidentsFallback (iso : Int → String) (now : Nat) : Body :=
  .array [
    [("id", .str "abc123"), ("alcohol", .num 0.02), ("vibration", .num 0.8),
      ("distance", .num 20), ("seatbelt", .bool true), ("impact", .num 0.9),
      ("lat", .num 5.6545), ("lng", .num (-0.1869)),
      ("lcd_display", .str "ACCIDENT DETECTED"),
      ("timestamp", .str (iso ((now : Int) - 86400000)))],
    [("id", .str "def456"), ("alcohol", .num 0.04), ("vibration", .num 0.7),
      ("distance", .num 15), ("seatbelt", .bool false), ("impact", .num 0.8),
      ("lat", .num 5.6540), ("lng", .num (-0.1875)),
      ("lcd_display", .str "ACCIDENT DETECTED"),
      ("timestamp", .str (iso ((now : Int) - 172800000)))]]

/-- The handler of `GET /api/accidents` (lines 195-229). -/
def getAccidents (iso : Int → String) (now : Nat)
    (accidentsQ : Except String (List Obj)) : Response :=
  match accidentsQ with
  | .ok accidents => ⟨200, .array accidents⟩
  | .error _ => ⟨200, accidentsFallback iso now⟩

/-- The mock position of `GET /api/car/position`. -/
def carPositionFallback : Body :=
  .object [("lat", .num 5.6545), ("lng", .num (-0.1869)), ("speed", .num 42)]

/-- The handler of `GET /api/car/position` (lines 232-255): the guard is
`latest && latest.lat && latest.lng`. -/
def getCarPosition (latestQ : Except String (Option Obj)) : Response :=
  match latestQ with
  | .ok (some latest) =>
    if truthy (latest.get "lat") && truthy (latest.get "lng") then
      ⟨200, .object [("lat", latest.get "lat"), ("lng", latest.get "lng"),
        ("speed", .num 42)]⟩
    else ⟨200, carPositionFallback⟩
  | .ok none => ⟨200, carPositionFallback⟩
  | .error _ => ⟨200, carPositionFallback⟩

/-! Write handlers (`server.js` lines 258-295). `now` is the clock reading
(`new Date()`, `Date.now()`), `randStr` is the text
`Math.random().toString(36)`. -/

/-- The base-36 digit character of `d` (`0`-`9`, then `a`-`z`). -/
def digitChar36 (d : Nat) : Char :=
  if d < 10 then Char.ofNat (48 + d) else Char.ofNat (87 + d)

/-- The digit loop of `toString36`: peels base-36 digits off `n`, least
significant first, onto the front of `acc`; `fuel` bounds the number of
digits. -/
def toString36Aux : Nat → Nat → List Char → List Char
  | 0, _, acc => acc
  | fuel + 1, n, acc =>
    if n / 36 = 0 then digitChar36 (n % 36) :: acc
    else toString36Aux fuel (n / 36) (digitChar36 (n % 36) :: acc)

/-- The rendering `n.toString(36)` of a non-negative integer. -/
def toString36 (n : Nat) : String :=
  String.mk (toString36Aux (n + 1) n [])

/-- The call `s.substr(start, len)`: at most `len` characters from position
`start`. -/
def substr (s : String) (start len : Nat) : String :=
  String.mk ((s.data.drop start).take len)

/-- The accident id of line 288:
`Date.now().toString(36) + Math.random().toString(36).substr(2, 5)`. -/
def accidentId (now : Nat) (randStr : String) : String :=
  toString36 now ++ substr randStr 2 5

/-- The 401 response of `requireApiKey`. -/
def unauthorized : Response :=
  ⟨401, .object [("error", .str "Unauthorized: Invalid API Key")]⟩

/-- The 500 response of the write handlers. -/
def databaseError (msg : String) : Response :=
  ⟨500, .object [("error", .str "Database error"), ("details", .str msg)]⟩

/-- The handler of `POST /api/sensor` behind `requireApiKey` (lines 258-268). -/
def postSensor (envKey : Option String) (now : Nat) (req : Request) (st : Store) :
    Response × Store :=
  if requireApiKey envKey req then
    let data := req.body
    if !isValidSensorData data then
      (⟨400, .object [("error", .str "Invalid sensor data")]⟩, st)
    else
      let data := data.set "timestamp" (.date now)
      match st.createSensor data with
      | (.ok sensorEntry, st') =>
        (⟨200, .object [("status", .str "ok"), ("id", sensorEntry.get "id")]⟩, st')
      | (.error msg, st') => (databaseError msg, st')
  else (unauthorized, st)

/-- The handler of `POST /api/sensor/http` behind `requireApiKey` (lines 271-281). -/
def postSensorHttp (envKey : Option String) (now : Nat) (req : Request) (st : Store) :
    Response × Store :=
  if requireApiKey envKey req then
    let data := req.body
    if !isValidSensorData data then
      (⟨400, .object [("error", .str "Invalid sensor data")]⟩, st)
    else
      let data := data.set "timestamp" (.date now)
      match st.createSensor data with
      | (.ok sensorEntry, st') =>
        (⟨200, .object [("status", .str "ok"), ("id", sensorEntry.get "id")]⟩, st')
      | (.error msg, st') => (databaseError msg, st')
  else (unauthorized, st)

/-- The handler of `POST /api/accident` behind `requireApiKey` (lines 284-295). -/
def postAccident (envKey : Option String) (now : Nat) (randStr : String)
    (req : Request) (st : Store) : Response × Store :=
  if requireApiKey envKey req then
    let data := req.body
    if !isValidAccidentData data then
      (⟨400, .object [("error", .str "Invalid accident data")]⟩, st)
    else
      let data := data.set "timestamp" (.date now)
      let data := data.set "id" (.str (accidentId now randStr))
      match st.createAccident data with
      | (.ok accidentEntry, st') =>
        (⟨200, .object [("status", .str "ok"), ("id", accidentEntry.get "id")]⟩, st')
      | (.error msg, st') => (databaseError msg, st')
  else (unauthorized, st)

/-- The three write endpoints. -/
inductive WriteEndpoint where
  | sensor
  | sensorHttp
  | accident
  deriving DecidableEq

/-- The handler registered for a write endpoint. -/
def handleWrite (e : WriteEndpoint) (envKey : Option String) (now : Nat)
    (randStr : String) (req : Request) (st : Store) : Response × Store :=
  match e with
  | .sensor => postSensor envKey now req st
  | .sensorHttp => postSensorHttp envKey now req st
  | .accident => postAccident envKey now randStr req st

/-! Predicates of the specification -/

/-- The five required fields are correctly typed: `alcohol`, `vibration`,
`distance`, `impact` numbers and `seatbelt` a boolean. -/
def requiredFieldsTyped (data : Obj) : Prop :=
  typeof (data.get "alcohol") = "number" ∧ typeof (data.get "vibration") = "number" ∧
  typeof (data.get "distance") = "number" ∧ typeof (data.get "impact") = "number" ∧
  typeof (data.get "seatbelt") = "boolean"

/-- A well-typed sensor payload with a position and no LCD text. -/
def samplePayload : Obj :=
  [("alcohol", .num 0.02), ("vibration", .num 0.8), ("distance", .num 20),
    ("seatbelt", .bool true), ("impact", .num 0.9), ("lat", .num 5.6545),
    ("lng", .num (-0.1869))]

/-- A payload with well-typed required fields and a numeric `lcdDisplay`. -/
def camelCaseLcdPayload : Obj :=
  [("alcohol", .num 0), ("vibration", .num 0), ("distance", .num 0),
    ("seatbelt", .bool true), ("impact", .num 0), ("lcdDisplay", .num 5)]

/-- A payload with well-typed required fields and a numeric `lcd_display`. -/
def snakeCaseLcdPayload : Obj :=
  [("alcohol", .num 0), ("vibration", .num 0), ("distance", .num 0),
    ("seatbelt", .bool true), ("impact", .num 0), ("lcd_display", .num 5)]

/-- A request whose `X-API-Key` header is sent with an empty value and whose
`api_key` query parameter is the default secret. -/
def emptyHeaderRequest : Request :=
  { apiKeyHeader := some "", apiKeyQuery := .str "safedrive_secret_key", body := [] }

/-- A request with a wrong non-empty header and the default secret in the query. -/
def wrongHeaderRequest : Request :=
  { apiKeyHeader := some "guess", apiKeyQuery := .str "safedrive_secret_key", body := [] }

/-- An available store with no records. -/
def emptyStore : Store :=
  { sensors := [], accidents := [], nextId := 1, failure := none, insertAttempts := 0 }

/-- A request without any credential. -/
def anonymousRequest : Request :=
  { apiKeyHeader := none, apiKeyQuery := .undefined, body := samplePayload }

/-- A request with the default secret in the header and a valid sensor payload. -/
def validRequest : Request :=
  { apiKeyHeader := some "safedrive_secret_key", apiKeyQuery := .undefined,
    body := samplePayload }

/-- A request with the default secret in the header and a payload without `seatbelt`. -/
def noSeatbeltRequest : Request :=
  { apiKeyHeader := some "safedrive_secret_key", apiKeyQuery := .undefined,
    body := [("alcohol", .num 0), ("vibration", .num 0), ("distance", .num 0),
      ("impact", .num 0)] }

/-- A reading taken on the equator: `lat` is the number 0. -/
def equatorReading : Obj :=
  [("id", .num 1), ("alcohol", .num 0), ("vibration", .num 0), ("distance", .num 0),
    ("seatbelt", .bool true), ("impact", .num 0), ("lat", .num 0), ("lng", .num 10)]

/-- An available store whose only sensor reading is `equatorReading`. -/
def equatorStore : Store :=
  { sensors := [equatorReading], accidents := [], nextId := 2, failure := none,
    insertAttempts := 1 }

/-- The value of a numeric field of a record, a missing one read as 0. -/
def fieldOrZero (field : String) (a : Obj) : ℚ :=
  match a.get field with
  | .num x => x
  | _ => 0

/-- A numeric column of a stored record holds a number or is missing
(`undefined` or `null`). -/
def numberOrMissing (v : JsVal) : Prop :=
  v = .undefined ∨ v = .null ∨ ∃ x, v = .num x

/-- Accident records as the data model types them: `alcohol` and `impact`
are numbers or missing. -/
def wellTypedAccidents (accidents : List Obj) : Prop :=
  ∀ a ∈ accidents, numberOrMissing (a.get "alcohol") ∧ numberOrMissing (a.get "impact")

/-- The fixture of three accident records: alcohol 0.1, 0.3, 0.5, impact 0.2,
0.4, 0.9, the first two without seatbelt. -/
def statsFixture : List Obj :=
  [[("alcohol", .num 0.1), ("impact", .num 0.2), ("seatbelt", .bool false)],
   [("alcohol", .num 0.3), ("impact", .num 0.4), ("seatbelt", .bool false)],
   [("alcohol", .num 0.5), ("impact", .num 0.9), ("seatbelt", .bool true)]]

/-! IEEE 754 binary64 arithmetic, the arithmetic of JavaScript numbers, for
the running sum and the quotient of `server.js` line 125. A finite double is
the rational it denotes. -/

/-- Rounding of a rational to the nearest integer, a tie to the even one. -/
def roundHalfEven (q : ℚ) : ℤ :=
  let f := ⌊q⌋
  if q - f < 1 / 2 then f
  else if 1 / 2 < q - f then f + 1
  else if f % 2 = 0 then f else f + 1

/-- The digit loop of `bitLength`; `fuel` bounds the number of digits. -/
def bitLengthAux : Nat → Nat → Nat
  | 0, _ => 0
  | fuel + 1, n => if n = 0 then 0 else bitLengthAux fuel (n / 2) + 1

/-- The number of binary digits of `n`. -/
def bitLength (n : Nat) : Nat := bitLengthAux n n

/-- The exponent `e` with `2 ^ e ≤ |x| < 2 ^ (e + 1)`, for `x ≠ 0`: the
difference of the bit lengths of numerator and denominator, or one less. -/
def floorLog2 (x : ℚ) : ℤ :=
  let e0 : ℤ := (bitLength x.num.natAbs : ℤ) - (bitLength x.den : ℤ)
  if (2 : ℚ) ^ e0 ≤ |x| then e0 else e0 - 1

/-- The largest finite double, `Number.MAX_VALUE`. -/
def maxDouble : ℚ := (2 ^ 53 - 1) * 2 ^ 971

/-- The double an exact result `x` is rounded to (round to nearest, ties to
even): 53 significant bits, the unit in the last place never below `2 ^ -1074`
(subnormal numbers). `none` when the rounded value exceeds `Number.MAX_VALUE`:
the result is then `Infinity` or `-Infinity`, which is not a rational. -/
def roundDouble (x : ℚ) : Option ℚ :=
  if x = 0 then some 0
  else
    let e := max (floorLog2 x - 52) (-1074)
    let y := (roundHalfEven (x / 2 ^ e) : ℚ) * 2 ^ e
    if |y| ≤ maxDouble then some y else none

/-- The reduction `accidents.reduce((sum, a) => sum + (a[field] || 0), 0)` in
double arithmetic: every addition is rounded. -/
def sumFieldIEEE (field : String) (accidents : List Obj) : Option ℚ :=
  accidents.foldlM
    (fun sum a =>
      (asNumber (jsOr (a.get field) (.num 0))).bind (fun x => roundDouble (sum + x))) 0

/-- The handler of `GET /api/stats` (lines 116-144) with the sum and the
quotient of `avg_alcohol` computed in double arithmetic; counts and maxima
involve no rounding. `none` when a stored value is not a number or a result
is infinite. -/
def getStatsIEEE (accidentsQ sensorsQ : Except String (List Obj)) : Option Response :=
  match accidentsQ with
  | .error _ => some ⟨200, statsFallback⟩
  | .ok accidents =>
    match sensorsQ with
    | .error _ => some ⟨200, statsFallback⟩
    | .ok sensors => do
      let max_alcohol ←
        if accidents.length > 0 then
          mathMax (accidents.map (fun a => jsOr (a.get "alcohol") (.num 0)))
        else some 0
      let avg_alcohol ←
        if accidents.length > 0 then
          (sumFieldIEEE "alcohol" accidents).bind
            (fun s => roundDouble (s / (accidents.length : ℚ)))
        else some 0
      let max_impact ←
        if accidents.length > 0 then
          mathMax (accidents.map (fun a => jsOr (a.get "impact") (.num 0)))
        else some 0
      some ⟨200, .object [("total_accidents", .num accidents.length),
        ("max_alcohol", .num max_alcohol),
        ("avg_alcohol", .num avg_alcohol),
        ("max_impact", .num max_impact),
        ("seatbelt_violations",
          .num (accidents.filter (fun a => decide (a.get "seatbelt" = .bool false))).length),
        ("total_sensor_points", .num sensors.length)]⟩

/-- The exact result `y` is a double: an operation with this result is not
rounded and does not overflow. -/
def isDouble (y : ℚ) : Prop := roundDouble y = some y

/-- Every running sum, starting from `s` and adding the values in order, is a
double. -/
def sumsExactly : ℚ → List ℚ → Prop
  | _, [] => True
  | s, x :: xs => isDouble (s + x) ∧ sumsExactly (s + x) xs

/-- The arithmetic mean of the alcohol values of the records in exact
arithmetic, a missing alcohol read as 0 (0 for no records). -/
def exactMeanAlcohol (accidents : List Obj) : ℚ :=
  (accidents.map (fieldOrZero "alcohol")).sum / (accidents.length : ℚ)

/-- No operation of the mean of the alcohol values is rounded: the running
sums are doubles and so is the quotient by the number of records. -/
def meanUnrounded (accidents : List Obj) : Prop :=
  sumsExactly 0 (accidents.map (fieldOrZero "alcohol")) ∧
  isDouble (exactMeanAlcohol accidents)

/-- The double the JSON number `0.1` parses to. -/
def tenthDouble : ℚ := 3602879701896397 / 36028797018963968

/-- An accident record with alcohol `0.1`. -/
def tenthAccident : Obj :=
  [("alcohol", .num tenthDouble), ("vibration", .num 0), ("distance", .num 0),
    ("seatbelt", .bool true), ("impact", .num 0)]

/-- Three accident records with alcohol 0.25, 0.5 and 0.75. -/
def quartersFixture : List Obj :=
  [[("alcohol", .num 0.25), ("impact", .num 0), ("seatbelt", .bool true)],
   [("alcohol", .num 0.5), ("impact", .num 0), ("seatbelt", .bool true)],
   [("alcohol", .num 0.75), ("impact", .num 0), ("seatbelt", .bool true)]]

/-! Theorems -/

/-! Basic facts -/

theorem typeof_number_iff (v : JsVal) : typeof v = "number" ↔ ∃ x, v = .num x := by
  cases v <;> simp [typeof]

theorem API_KEY_ne_empty (envKey : Option String) : API_KEY envKey ≠ "" := by
  unfold API_KEY
  cases envKey with
  | none => decide
  | some s =>
    by_cases h : s = ""
    · simp [h]
    · simp [h]

theorem requireApiKey_iff (envKey : Option String) (req : Request) :
    requireApiKey envKey req = true ↔ presentedKey req = .str (API_KEY envKey) := by
  unfold requireApiKey
  constructor
  · intro h
    by_contra hne
    simp [hne] at h
  · intro h
    have hk := API_KEY_ne_empty envKey
    simp [h, truthy, hk]

/-! Validator -/

/-- C1: on a payload without an LCD-text field the sensor and the accident
validator agree, and they accept exactly when `alcohol`, `vibration`,
`distance` and `impact` are numbers, `seatbelt` is a boolean and each of
`lat`, `lng` is absent or a number; a string in any of these fields, or a
missing `seatbelt`, rejects the payload. -/
theorem validators_without_lcd (data : Obj) (h : data.get "lcd_display" = .undefined) :
    isValidAccidentData data = isValidSensorData data ∧
    (isValidSensorData data = true ↔
      typeof (data.get "alcohol") = "number" ∧ typeof (data.get "vibration") = "number" ∧
      typeof (data.get "distance") = "number" ∧ typeof (data.get "impact") = "number" ∧
      typeof (data.get "seatbelt") = "boolean" ∧
      (data.get "lat" = .undefined ∨ typeof (data.get "lat") = "number") ∧
      (data.get "lng" = .undefined ∨ typeof (data.get "lng") = "number")) ∧
    (∀ k ∈ ["alcohol", "vibration", "distance", "impact", "seatbelt", "lat", "lng"],
      ∀ s, data.get k = .str s → isValidSensorData data = false) ∧
    (data.get "seatbelt" = .undefined → isValidSensorData data = false) := by
  refine ⟨rfl, ?_, ?_, ?_⟩
  · simp only [isValidSensorData, h, Bool.and_eq_true, Bool.or_eq_true, decide_eq_true_eq]
    tauto
  · intro k hk s hs
    simp only [List.mem_cons, List.mem_singleton, List.not_mem_nil, or_false] at hk
    rcases hk with rfl | rfl | rfl | rfl | rfl | rfl | rfl <;>
      simp [isValidSensorData, hs, typeof]
  · intro hs
    simp [isValidSensorData, hs, typeof]

theorem validators_without_lcd_witness :
    samplePayload.get "lcd_display" = .undefined ∧
    isValidAccidentData samplePayload = isValidSensorData samplePayload ∧
    (isValidSensorData samplePayload = true ↔
      typeof (samplePayload.get "alcohol") = "number" ∧
      typeof (samplePayload.get "vibration") = "number" ∧
      typeof (samplePayload.get "distance") = "number" ∧
      typeof (samplePayload.get "impact") = "number" ∧
      typeof (samplePayload.get "seatbelt") = "boolean" ∧
      (samplePayload.get "lat" = .undefined ∨ typeof (samplePayload.get "lat") = "number") ∧
      (samplePayload.get "lng" = .undefined ∨ typeof (samplePayload.get "lng") = "number")) :=
  ⟨by decide, (validators_without_lcd samplePayload (by decide)).1,
    (validators_without_lcd samplePayload (by decide)).2.1⟩

/-- C2 (as stated, refuted): a payload with well-typed required fields and
`lcdDisplay: 5` is accepted by both validators, which read the key
`lcd_display`. -/
theorem lcdDisplay_number_accepted :
    requiredFieldsTyped camelCaseLcdPayload ∧
    camelCaseLcdPayload.get "lcdDisplay" = .num 5 ∧
    typeof (camelCaseLcdPayload.get "lcdDisplay") ≠ "string" ∧
    isValidSensorData camelCaseLcdPayload = true ∧
    isValidAccidentData camelCaseLcdPayload = true := by
  refine ⟨?_, ?_, ?_, ?_, ?_⟩
  · simp [requiredFieldsTyped, camelCaseLcdPayload, Obj.get, List.lookup, typeof]
  · simp [camelCaseLcdPayload, Obj.get, List.lookup]
  · simp [camelCaseLcdPayload, Obj.get, List.lookup, typeof]
  · simp [isValidSensorData, camelCaseLcdPayload, Obj.get, List.lookup, typeof]
  · simp [isValidAccidentData, isValidSensorData, camelCaseLcdPayload, Obj.get, List.lookup,
      typeof]

/-- C2 (amended): a payload with well-typed required fields that carries the
field `lcd_display` with a value that is not a string is rejected by the
sensor and by the accident validator. -/
theorem lcd_display_non_string_rejected (data : Obj) (_hreq : requiredFieldsTyped data)
    (hpresent : data.get "lcd_display" ≠ .undefined)
    (hstr : typeof (data.get "lcd_display") ≠ "string") :
    isValidSensorData data = false ∧ isValidAccidentData data = false := by
  have h : isValidSensorData data = false := by
    simp [isValidSensorData, hpresent, hstr]
  exact ⟨h, h⟩

theorem lcd_display_non_string_rejected_witness :
    requiredFieldsTyped snakeCaseLcdPayload ∧
    snakeCaseLcdPayload.get "lcd_display" ≠ .undefined ∧
    typeof (snakeCaseLcdPayload.get "lcd_display") ≠ "string" ∧
    isValidSensorData snakeCaseLcdPayload = false ∧
    isValidAccidentData snakeCaseLcdPayload = false :=
  have h1 : requiredFieldsTyped snakeCaseLcdPayload := by
    simp [requiredFieldsTyped, snakeCaseLcdPayload, Obj.get, List.lookup, typeof]
  have h2 : snakeCaseLcdPayload.get "lcd_display" ≠ .undefined := by
    simp [snakeCaseLcdPayload, Obj.get, List.lookup]
  have h3 : typeof (snakeCaseLcdPayload.get "lcd_display") ≠ "string" := by
    simp [snakeCaseLcdPayload, Obj.get, List.lookup, typeof]
  ⟨h1, h2, h3, lcd_display_non_string_rejected snakeCaseLcdPayload h1 h2 h3⟩

/-! API key -/

/-- C4 (as stated, refuted): with the header sent empty and the secret in the
query parameter, both are present, the header differs from the secret, and
the request is authorized. -/
theorem empty_header_query_decides :
    emptyHeaderRequest.apiKeyHeader = some "" ∧
    emptyHeaderRequest.apiKeyQuery ≠ .undefined ∧
    "" ≠ API_KEY none ∧
    requireApiKey none emptyHeaderRequest = true := by
  refine ⟨rfl, ?_, ?_, ?_⟩
  · simp [emptyHeaderRequest]
  · decide
  · rw [requireApiKey_iff]
    simp [presentedKey, emptyHeaderRequest, Request.headerVal, jsOr, truthy, API_KEY]

/-- C4 (amended): when the `X-API-Key` header is present with a non-empty
value and the `api_key` query parameter is present, the request is authorized
exactly when the header value equals the configured secret, whatever the
query parameter. -/
theorem header_decides (envKey : Option String) (req : Request) (h : String)
    (hheader : req.apiKeyHeader = some h) (hne : h ≠ "")
    (_hquery : req.apiKeyQuery ≠ .undefined) :
    requireApiKey envKey req = true ↔ h = API_KEY envKey := by
  rw [requireApiKey_iff]
  simp [presentedKey, Request.headerVal, hheader, jsOr, truthy, hne]

theorem header_decides_witness :
    wrongHeaderRequest.apiKeyHeader = some "guess" ∧ "guess" ≠ "" ∧
    wrongHeaderRequest.apiKeyQuery ≠ .undefined ∧
    (requireApiKey none wrongHeaderRequest = true ↔ "guess" = API_KEY none) :=
  ⟨rfl, by decide, by simp [wrongHeaderRequest],
    header_decides none wrongHeaderRequest "guess" rfl (by decide)
      (by simp [wrongHeaderRequest])⟩

/-! Objects -/

theorem Obj.get_set_self (o : Obj) (k : String) (v : JsVal) : (Obj.set o k v).get k = v := by
  induction o with
  | nil => simp [Obj.set, Obj.get, List.lookup]
  | cons p rest ih =>
    obtain ⟨k', v'⟩ := p
    unfold Obj.set
    by_cases h : k' = k
    · simp [h, Obj.get, List.lookup]
    · have hb : (k == k') = false := by simpa using fun e => h e.symm
      simp only [h, if_false]
      simpa [Obj.get, List.lookup, hb] using ih

theorem Obj.get_set_of_ne (o : Obj) (k k' : String) (v : JsVal) (hne : k' ≠ k) :
    (Obj.set o k v).get k' = o.get k' := by
  induction o with
  | nil =>
    have hb : (k' == k) = false := by simpa using hne
    simp [Obj.set, Obj.get, List.lookup, hb]
  | cons p rest ih =>
    obtain ⟨k0, v0⟩ := p
    unfold Obj.set
    by_cases h : k0 = k
    · subst h
      have hb : (k' == k0) = false := by simpa using hne
      simp [Obj.get, List.lookup, hb]
    · simp only [h, if_false]
      by_cases h2 : k' = k0
      · subst h2
        simp [Obj.get, List.lookup]
      · have hb : (k' == k0) = false := by simpa using h2
        simpa [Obj.get, List.lookup, hb] using ih

/-! Write path -/

theorem handleWrite_unauthorized (e : WriteEndpoint) (envKey : Option String) (now : Nat)
    (randStr : String) (req : Request) (st : Store)
    (h : presentedKey req ≠ .str (API_KEY envKey)) :
    handleWrite e envKey now randStr req st = (unauthorized, st) := by
  have hk : requireApiKey envKey req = false := by
    cases hr : requireApiKey envKey req with
    | false => rfl
    | true => exact absurd ((requireApiKey_iff envKey req).1 hr) h
  cases e <;> simp [handleWrite, postSensor, postSensorHttp, postAccident, hk]

/-- C3: on each of the three write endpoints a request whose presented
credential is absent or differs from the configured secret is answered 401
whatever its payload, and a request with the right credential and a payload
that fails validation is answered 400; in both cases the store is returned
as it was: no insert attempt is counted and both collections are unchanged. -/
theorem write_rejected_before_insert (e : WriteEndpoint) (envKey : Option String) (now : Nat)
    (randStr : String) (req : Request) (st : Store) :
    ((presentedKey req = .undefined ∨ presentedKey req ≠ .str (API_KEY envKey)) →
      (handleWrite e envKey now randStr req st).1.status = 401 ∧
      (handleWrite e envKey now randStr req st).2 = st) ∧
    (presentedKey req = .str (API_KEY envKey) → isValidSensorData req.body = false →
      (handleWrite e envKey now randStr req st).1.status = 400 ∧
      (handleWrite e envKey now randStr req st).2 = st) := by
  constructor
  · intro h
    have hne : presentedKey req ≠ .str (API_KEY envKey) := by
      rcases h with h | h
      · rw [h]; simp
      · exact h
    rw [handleWrite_unauthorized e envKey now randStr req st hne]
    exact ⟨rfl, rfl⟩
  · intro hkey hbad
    have hk : requireApiKey envKey req = true := (requireApiKey_iff envKey req).2 hkey
    cases e <;>
      simp [handleWrite, postSensor, postSensorHttp, postAccident, isValidAccidentData, hk, hbad]

theorem write_rejected_before_insert_witness :
    (presentedKey anonymousRequest = .undefined ∧
      (handleWrite .sensor none 1700000000000 "0.4fzyo82mvyr" anonymousRequest
        emptyStore).1.status = 401 ∧
      (handleWrite .sensor none 1700000000000 "0.4fzyo82mvyr" anonymousRequest
        emptyStore).2 = emptyStore) ∧
    (presentedKey noSeatbeltRequest = .str (API_KEY none) ∧
      isValidSensorData noSeatbeltRequest.body = false ∧
      (handleWrite .accident none 1700000000000 "0.4fzyo82mvyr" noSeatbeltRequest
        emptyStore).1.status = 400 ∧
      (handleWrite .accident none 1700000000000 "0.4fzyo82mvyr" noSeatbeltRequest
        emptyStore).2 = emptyStore) :=
  have h1 : presentedKey anonymousRequest = .undefined := by
    simp [presentedKey, anonymousRequest, Request.headerVal, jsOr, truthy]
  have h2 : presentedKey noSeatbeltRequest = .str (API_KEY none) := by
    simp [presentedKey, noSeatbeltRequest, Request.headerVal, jsOr, truthy, API_KEY]
  have h3 : isValidSensorData noSeatbeltRequest.body = false := by
    simp [isValidSensorData, noSeatbeltRequest, Obj.get, List.lookup, typeof]
  ⟨⟨h1, (write_rejected_before_insert .sensor none 1700000000000 "0.4fzyo82mvyr"
      anonymousRequest emptyStore).1 (Or.inl h1)⟩,
    ⟨h2, h3, (write_rejected_before_insert .accident none 1700000000000 "0.4fzyo82mvyr"
      noSeatbeltRequest emptyStore).2 h2 h3⟩⟩

/-- C5: with the valid key, a valid sensor payload and a store whose insert
succeeds, `POST /api/sensor` answers `{status: 'ok', id}` with the id the store
assigned, and the `GET /api/sensor` that follows returns the record just
created: it carries that id and the server's timestamp and agrees with the
payload on every other field. -/
theorem post_sensor_then_get (envKey : Option String) (now : Nat) (req : Request)
    (st : Store) (iso : Int → String) (later : Nat)
    (hkey : presentedKey req = .str (API_KEY envKey))
    (hvalid : isValidSensorData req.body = true)
    (hstore : st.failure = none) :
    (postSensor envKey now req st).1 =
      ⟨200, .object [("status", .str "ok"), ("id", .num st.nextId)]⟩ ∧
    ∃ r, getLatestSensor iso later (postSensor envKey now req st).2.findLatestSensor =
        ⟨200, .object r⟩ ∧
      r.get "id" = .num st.nextId ∧
      r.get "timestamp" = .date now ∧
      ∀ k, k ≠ "id" → k ≠ "timestamp" → r.get k = req.body.get k := by
  have hk : requireApiKey envKey req = true := (requireApiKey_iff envKey req).2 hkey
  refine ⟨?_, (req.body.set "timestamp" (.date now)).set "id" (.num st.nextId), ?_, ?_, ?_, ?_⟩
  · simp [postSensor, hk, hvalid, Store.createSensor, hstore, Obj.get_set_self]
  · simp [postSensor, hk, hvalid, Store.createSensor, hstore, Store.findLatestSensor,
      getLatestSensor]
  · exact Obj.get_set_self _ _ _
  · rw [Obj.get_set_of_ne _ _ _ _ (by decide)]
    exact Obj.get_set_self _ _ _
  · intro k h1 h2
    rw [Obj.get_set_of_ne _ _ _ _ h1, Obj.get_set_of_ne _ _ _ _ h2]

theorem post_sensor_then_get_witness :
    presentedKey validRequest = .str (API_KEY none) ∧
    isValidSensorData validRequest.body = true ∧
    emptyStore.failure = none ∧
    (postSensor none 1700000000000 validRequest emptyStore).1 =
      ⟨200, .object [("status", .str "ok"), ("id", .num emptyStore.nextId)]⟩ :=
  have h1 : presentedKey validRequest = .str (API_KEY none) := by
    simp [presentedKey, validRequest, Request.headerVal, jsOr, truthy, API_KEY]
  have h2 : isValidSensorData validRequest.body = true := by
    simp [isValidSensorData, validRequest, samplePayload, Obj.get, List.lookup, typeof]
  ⟨h1, h2, rfl,
    (post_sensor_then_get none 1700000000000 validRequest emptyStore (fun _ => "")
      1700000000001 h1 h2 rfl).1⟩

/-! Read path -/

/-- C8: whatever error the store query throws, each of the five read handlers
answers status 200 with its fallback payload, which depends on nothing but the
clock; the fallback of `GET /api/map`, answered at every clock reading and by
every unavailable store, is an array of three points with ids `abc123`,
`def456`, `ghi789` in that order. -/
theorem reads_fall_back (msg : String) (iso : Int → String) (now : Nat)
    (accidents : List Obj) (sensorsQ : Except String (List Obj)) :
    getStats (.error msg) sensorsQ = some ⟨200, statsFallback⟩ ∧
    getStats (.ok accidents) (.error msg) = some ⟨200, statsFallback⟩ ∧
    getLatestSensor iso now (.error msg) = ⟨200, sensorFallback iso now⟩ ∧
    getMapPoints iso now (.error msg) = ⟨200, mapFallback iso now⟩ ∧
    getAccidents iso now (.error msg) = ⟨200, accidentsFallback iso now⟩ ∧
    getCarPosition (.error msg) = ⟨200, carPositionFallback⟩ ∧
    (getMapPoints iso now (.error msg)).body.ids =
      [.str "abc123", .str "def456", .str "ghi789"] ∧
    ∀ st : Store,
      (getMapPoints iso now
        (Store.findAccidentsWithPosition { st with failure := some msg })).body.ids =
        [.str "abc123", .str "def456", .str "ghi789"] := by
  refine ⟨rfl, rfl, rfl, rfl, rfl, rfl, ?_, fun st => ?_⟩
  · simp [getMapPoints, mapFallback, Body.ids, Obj.get, List.lookup]
  · simp [Store.findAccidentsWithPosition, getMapPoints, mapFallback, Body.ids, Obj.get,
      List.lookup]

/-- C7 (code at the failing input): the store holds one reading, with
`lat = 0` and `lng = 10`; the query selects it, and the handler answers the
mock coordinate instead of the reading. -/
theorem car_position_at_equator :
    hasPosition equatorReading = true ∧
    equatorStore.findLatestSensorWithPosition = .ok (some equatorReading) ∧
    getCarPosition equatorStore.findLatestSensorWithPosition =
      ⟨200, .object [("lat", .num 5.6545), ("lng", .num (-0.1869)), ("speed", .num 42)]⟩ ∧
    getCarPosition equatorStore.findLatestSensorWithPosition ≠
      ⟨200, .object [("lat", .num 0), ("lng", .num 10), ("speed", .num 42)]⟩ := by
  have hpos : hasPosition equatorReading = true := by
    simp [hasPosition, notNull, equatorReading, Obj.get, List.lookup]
  have hq : equatorStore.findLatestSensorWithPosition = .ok (some equatorReading) := by
    simp [Store.findLatestSensorWithPosition, equatorStore, hpos]
  refine ⟨hpos, hq, ?_, ?_⟩
  · rw [hq]
    simp [getCarPosition, equatorReading, Obj.get, List.lookup, truthy, carPositionFallback]
  · rw [hq]
    simp [getCarPosition, equatorReading, Obj.get, List.lookup, truthy, carPositionFallback]
    norm_num

/-- When the latest positioned reading has non-zero numeric coordinates, the
car position handler answers them with the placeholder speed 42. -/
theorem car_position_nonzero (latest : Obj) (x y : ℚ) (hx : x ≠ 0) (hy : y ≠ 0)
    (hlat : latest.get "lat" = .num x) (hlng : latest.get "lng" = .num y) :
    getCarPosition (.ok (some latest)) =
      ⟨200, .object [("lat", .num x), ("lng", .num y), ("speed", .num 42)]⟩ := by
  simp [getCarPosition, hlat, hlng, truthy, hx, hy]

/-! Statistics -/

theorem asNumber_orZero (field : String) (a : Obj) (h : numberOrMissing (a.get field)) :
    asNumber (jsOr (a.get field) (.num 0)) = some (fieldOrZero field a) := by
  unfold fieldOrZero
  rcases h with h | h | ⟨x, h⟩
  · simp [h, jsOr, truthy, asNumber]
  · simp [h, jsOr, truthy, asNumber]
  · rw [h]
    by_cases hx : x = 0
    · simp [hx, jsOr, truthy, asNumber]
    · simp [hx, jsOr, truthy, asNumber]

theorem asNumbers_orZero (field : String) (A : List Obj)
    (h : ∀ a ∈ A, numberOrMissing (a.get field)) :
    asNumbers (A.map (fun a => jsOr (a.get field) (.num 0))) =
      some (A.map (fieldOrZero field)) := by
  induction A with
  | nil => rfl
  | cons a rest ih =>
    have h1 := asNumber_orZero field a (h a (List.mem_cons_self _ _))
    have h2 := ih (fun b hb => h b (List.mem_cons_of_mem _ hb))
    simp only [List.map_cons, asNumbers, h1, h2]

theorem foldlM_orZero (field : String) (A : List Obj)
    (h : ∀ a ∈ A, numberOrMissing (a.get field)) (s : ℚ) :
    A.foldlM
      (fun sum a => (asNumber (jsOr (a.get field) (.num 0))).map (fun x => sum + x)) s =
      some (s + (A.map (fieldOrZero field)).sum) := by
  induction A generalizing s with
  | nil => simp
  | cons a rest ih =>
    have h1 := asNumber_orZero field a (h a (List.mem_cons_self _ _))
    have h2 := ih (fun b hb => h b (List.mem_cons_of_mem _ hb)) (s + fieldOrZero field a)
    simp only [List.foldlM_cons, h1, Option.map_some', Option.bind_eq_bind, Option.some_bind,
      h2, List.map_cons, List.sum_cons, add_assoc]

theorem sumField_orZero (field : String) (A : List Obj)
    (h : ∀ a ∈ A, numberOrMissing (a.get field)) :
    sumField field A = some ((A.map (fieldOrZero field)).sum) := by
  unfold sumField
  rw [foldlM_orZero field A h 0, zero_add]

theorem foldl_max_mem (xs : List ℚ) (x : ℚ) :
    xs.foldl max x ∈ x :: xs ∧ ∀ y ∈ x :: xs, y ≤ xs.foldl max x := by
  induction xs generalizing x with
  | nil => simp
  | cons z rest ih =>
    obtain ⟨hmem, hub⟩ := ih (max x z)
    simp only [List.foldl_cons]
    constructor
    · rcases List.mem_cons.1 hmem with h | h
      · rw [h]
        rcases max_choice x z with hc | hc <;> simp [hc]
      · simp [h]
    · intro y hy
      rcases List.mem_cons.1 hy with h | h
      · rw [h]
        exact le_trans (le_max_left x z) (hub _ (List.mem_cons_self _ _))
      · rcases List.mem_cons.1 h with h | h
        · rw [h]
          exact le_trans (le_max_right x z) (hub _ (List.mem_cons_self _ _))
        · exact hub y (List.mem_cons_of_mem _ h)

/-- On a non-empty list of well-typed records `Math.max` over a field read
with `|| 0` returns a value that is attained and bounds every record. -/
theorem mathMax_orZero (field : String) (a : Obj) (rest : List Obj)
    (h : ∀ b ∈ a :: rest, numberOrMissing (b.get field)) :
    ∃ m, mathMax ((a :: rest).map (fun b => jsOr (b.get field) (.num 0))) = some m ∧
      m ∈ (a :: rest).map (fieldOrZero field) ∧
      ∀ b ∈ a :: rest, fieldOrZero field b ≤ m := by
  refine ⟨(rest.map (fieldOrZero field)).foldl max (fieldOrZero field a), ?_, ?_, ?_⟩
  · unfold mathMax
    rw [asNumbers_orZero field (a :: rest) h]
    rfl
  · exact (foldl_max_mem _ _).1
  · intro b hb
    exact (foldl_max_mem _ _).2 _ (List.mem_map_of_mem _ hb)

/-- The statistics computed over well-typed accident records: the counts, the
maxima (attained and upper bounds) and the mean. -/
theorem stats_values (A S : List Obj) (h : wellTypedAccidents A) :
    ∃ maxA avgA maxI : ℚ,
      getStats (.ok A) (.ok S) = some ⟨200, .object [
        ("total_accidents", .num A.length),
        ("max_alcohol", .num maxA),
        ("avg_alcohol", .num avgA),
        ("max_impact", .num maxI),
        ("seatbelt_violations",
          .num (A.countP (fun a => decide (a.get "seatbelt" = .bool false)))),
        ("total_sensor_points", .num S.length)]⟩ ∧
      (A = [] → maxA = 0 ∧ avgA = 0 ∧ maxI = 0) ∧
      (A ≠ [] →
        (maxA ∈ A.map (fieldOrZero "alcohol") ∧ ∀ a ∈ A, fieldOrZero "alcohol" a ≤ maxA) ∧
        avgA = (A.map (fieldOrZero "alcohol")).sum / (A.length : ℚ) ∧
        (maxI ∈ A.map (fieldOrZero "impact") ∧ ∀ a ∈ A, fieldOrZero "impact" a ≤ maxI)) := by
  cases A with
  | nil =>
    refine ⟨0, 0, 0, ?_, fun _ => ⟨rfl, rfl, rfl⟩, fun hne => absurd rfl hne⟩
    simp [getStats]
  | cons a rest =>
    obtain ⟨mA, hmA, hA1, hA2⟩ := mathMax_orZero "alcohol" a rest (fun b hb => (h b hb).1)
    obtain ⟨mI, hmI, hI1, hI2⟩ := mathMax_orZero "impact" a rest (fun b hb => (h b hb).2)
    have hs := sumField_orZero "alcohol" (a :: rest) (fun b hb => (h b hb).1)
    refine ⟨mA, ((a :: rest).map (fieldOrZero "alcohol")).sum / ((a :: rest).length : ℚ), mI,
      ?_, fun hnil => absurd hnil (List.cons_ne_nil _ _), fun _ => ⟨⟨hA1, hA2⟩, rfl, hI1, hI2⟩⟩
    have hpos : (a :: rest).length > 0 := by simp
    simp only [getStats, hpos, if_true, hmA, hmI, hs, Option.map_some', Option.bind_eq_bind,
      Option.some_bind, List.countP_eq_length_filter]

/-- C6: over accident records `A` and sensor readings `S` returned by the
store, `GET /api/stats` answers `total_accidents = |A|`, `total_sensor_points
= |S|`, `seatbelt_violations` = the number of records of `A` whose seatbelt is
exactly `false`, and, a missing alcohol or impact read as 0, `max_alcohol` the
maximum and `avg_alcohol` the arithmetic mean of alcohol over `A` and
`max_impact` the maximum of impact over `A`; the three are 0 when `A` is
empty. -/
theorem stats_over_records (A S : List Obj) (h : wellTypedAccidents A) :
    ∃ maxA avgA maxI : ℚ,
      getStats (.ok A) (.ok S) = some ⟨200, .object [
        ("total_accidents", .num A.length),
        ("max_alcohol", .num maxA),
        ("avg_alcohol", .num avgA),
        ("max_impact", .num maxI),
        ("seatbelt_violations",
          .num (A.countP (fun a => decide (a.get "seatbelt" = .bool false)))),
        ("total_sensor_points", .num S.length)]⟩ ∧
      (A = [] → maxA = 0 ∧ avgA = 0 ∧ maxI = 0) ∧
      (A ≠ [] →
        (maxA ∈ A.map (fieldOrZero "alcohol") ∧ ∀ a ∈ A, fieldOrZero "alcohol" a ≤ maxA) ∧
        avgA = (A.map (fieldOrZero "alcohol")).sum / (A.length : ℚ) ∧
        (maxI ∈ A.map (fieldOrZero "impact") ∧ ∀ a ∈ A, fieldOrZero "impact" a ≤ maxI)) :=
  stats_values A S h

theorem stats_over_records_witness :
    wellTypedAccidents statsFixture ∧
    getStats (.ok statsFixture) (.ok []) = some ⟨200, .object [
      ("total_accidents", .num 3),
      ("max_alcohol", .num 0.5),
      ("avg_alcohol", .num 0.3),
      ("max_impact", .num 0.9),
      ("seatbelt_violations", .num 2),
      ("total_sensor_points", .num 0)]⟩ := by
  have hwt : wellTypedAccidents statsFixture := by
    intro a ha
    simp only [statsFixture, List.mem_cons, List.mem_singleton, List.not_mem_nil, or_false] at ha
    rcases ha with rfl | rfl | rfl <;>
      simp [numberOrMissing, Obj.get, List.lookup]
  refine ⟨hwt, ?_⟩
  obtain ⟨maxA, avgA, maxI, heq, -, hne⟩ := stats_over_records statsFixture [] hwt
  obtain ⟨⟨hA1, hA2⟩, havg, hI1, hI2⟩ := hne (by simp [statsFixture])
  have e1 : maxA = 0.5 := by
    simp [statsFixture, fieldOrZero, Obj.get, List.lookup] at hA1 hA2
    rcases hA1 with h | h | h <;> rw [h] at hA2 ⊢ <;> norm_num at hA2 ⊢
  have e2 : maxI = 0.9 := by
    simp [statsFixture, fieldOrZero, Obj.get, List.lookup] at hI1 hI2
    rcases hI1 with h | h | h <;> rw [h] at hI2 ⊢ <;> norm_num at hI2 ⊢
  have e3 : avgA = 0.3 := by
    rw [havg]
    simp [statsFixture, fieldOrZero, Obj.get, List.lookup]
    norm_num
  rw [heq, e1, e2, e3]
  simp [statsFixture, Obj.get, List.lookup]

theorem sum_div_length_le (xs : List ℚ) (m : ℚ) (hne : xs ≠ []) (hub : ∀ x ∈ xs, x ≤ m) :
    xs.sum / (xs.length : ℚ) ≤ m := by
  have hlen : (0 : ℚ) < (xs.length : ℚ) := by
    have : 0 < xs.length := List.length_pos.2 hne
    exact_mod_cast this
  rw [div_le_iff₀ hlen]
  have h := List.sum_le_card_nsmul xs m hub
  simpa [nsmul_eq_mul, mul_comm] using h

/-- With the sum and the quotient taken in exact arithmetic, `avg_alcohol` is
at most `max_alcohol` in the statistics over the accident records (empty or
not, a missing alcohol read as 0) and in the fallback snapshot. -/
theorem getStats_avg_le_max (accidentsQ sensorsQ : Except String (List Obj))
    (h : ∀ A, accidentsQ = .ok A → wellTypedAccidents A) :
    ∃ (r : Response) (avg mx : ℚ), getStats accidentsQ sensorsQ = some r ∧
      r.status = 200 ∧
      r.body.get "avg_alcohol" = .num avg ∧ r.body.get "max_alcohol" = .num mx ∧
      avg ≤ mx := by
  have hfallback : ∃ (r : Response) (avg mx : ℚ), some (⟨200, statsFallback⟩ : Response) = some r ∧
      r.status = 200 ∧
      r.body.get "avg_alcohol" = .num avg ∧ r.body.get "max_alcohol" = .num mx ∧
      avg ≤ mx := by
    refine ⟨⟨200, statsFallback⟩, 0.3, 0.8, rfl, rfl, ?_, ?_, by norm_num⟩
    · simp [statsFallback, Body.get, Obj.get, List.lookup]
    · simp [statsFallback, Body.get, Obj.get, List.lookup]
  cases accidentsQ with
  | error msg => exact hfallback
  | ok A =>
    cases sensorsQ with
    | error msg => exact hfallback
    | ok S =>
      obtain ⟨maxA, avgA, maxI, heq, hnil, hne⟩ := stats_values A S (h A rfl)
      refine ⟨_, avgA, maxA, heq, rfl, ?_, ?_, ?_⟩
      · simp [Body.get, Obj.get, List.lookup]
      · simp [Body.get, Obj.get, List.lookup]
      · by_cases hA : A = []
        · obtain ⟨h1, h2, -⟩ := hnil hA
          rw [h1, h2]
        · obtain ⟨⟨-, hub⟩, havg, -⟩ := hne hA
          rw [havg]
          have hle := sum_div_length_le (A.map (fieldOrZero "alcohol")) maxA
            (by simpa using hA)
            (by
              intro x hx
              obtain ⟨a, ha, rfl⟩ := List.mem_map.1 hx
              exact hub a ha)
          simpa using hle

theorem sumFieldIEEE_exact (field : String) (A : List Obj)
    (h : ∀ a ∈ A, numberOrMissing (a.get field)) (s : ℚ)
    (hs : sumsExactly s (A.map (fieldOrZero field))) :
    A.foldlM
      (fun sum a =>
        (asNumber (jsOr (a.get field) (.num 0))).bind (fun x => roundDouble (sum + x))) s =
      some (s + (A.map (fieldOrZero field)).sum) := by
  induction A generalizing s with
  | nil => simp
  | cons a rest ih =>
    have h1 := asNumber_orZero field a (h a (List.mem_cons_self _ _))
    obtain ⟨hd, hrest⟩ := hs
    have h2 := ih (fun b hb => h b (List.mem_cons_of_mem _ hb)) (s + fieldOrZero field a) hrest
    have hd2 : roundDouble (s + fieldOrZero field a) = some (s + fieldOrZero field a) := hd
    simp only [List.foldlM_cons, h1, Option.bind_eq_bind, Option.some_bind, hd2, h2,
      List.map_cons, List.sum_cons, add_assoc]

/-- When no operation of the mean is rounded, the handler in double arithmetic
answers what the handler in exact arithmetic answers. -/
theorem getStatsIEEE_eq_getStats (A S : List Obj) (h : wellTypedAccidents A)
    (hexact : meanUnrounded A) :
    getStatsIEEE (.ok A) (.ok S) = getStats (.ok A) (.ok S) := by
  have hsum : sumFieldIEEE "alcohol" A = some ((A.map (fieldOrZero "alcohol")).sum) := by
    unfold sumFieldIEEE
    rw [sumFieldIEEE_exact "alcohol" A (fun b hb => (h b hb).1) 0 hexact.1, zero_add]
  have hsum2 := sumField_orZero "alcohol" A (fun b hb => (h b hb).1)
  have hq : roundDouble ((A.map (fieldOrZero "alcohol")).sum / (A.length : ℚ)) =
      some ((A.map (fieldOrZero "alcohol")).sum / (A.length : ℚ)) := hexact.2
  simp only [getStatsIEEE, getStats, hsum, hsum2, Option.bind_eq_bind, Option.some_bind, hq,
    Option.map_some']

/-- C10 (as stated, refuted): over three accident records with alcohol `0.1`
the handler, adding and dividing in double arithmetic, answers `max_alcohol`
0.1 and `avg_alcohol` 0.10000000000000002, which is larger. -/
theorem avg_alcohol_exceeds_max_alcohol :
    roundDouble 0.1 = some tenthDouble ∧
    isValidAccidentData tenthAccident = true ∧
    getStatsIEEE (.ok [tenthAccident, tenthAccident, tenthAccident]) (.ok []) =
      some ⟨200, .object [("total_accidents", .num 3),
        ("max_alcohol", .num (3602879701896397 / 36028797018963968)),
        ("avg_alcohol", .num (7205759403792795 / 72057594037927936)),
        ("max_impact", .num 0),
        ("seatbelt_violations", .num 0),
        ("total_sensor_points", .num 0)]⟩ ∧
    (3602879701896397 / 36028797018963968 : ℚ) < 7205759403792795 / 72057594037927936 := by
  have r1 : roundDouble (3602879701896397 / 36028797018963968) =
      some (3602879701896397 / 36028797018963968) := by decide!
  have r2 : roundDouble (3602879701896397 / 36028797018963968 +
      3602879701896397 / 36028797018963968) = some (3602879701896397 / 18014398509481984) := by
    decide!
  have r3 : roundDouble (3602879701896397 / 18014398509481984 +
      3602879701896397 / 36028797018963968) = some (1351079888211149 / 4503599627370496) := by
    decide!
  have r4 : roundDouble (1351079888211149 / 4503599627370496 / 3) =
      some (7205759403792795 / 72057594037927936) := by decide!
  refine ⟨by decide!, ?_, ?_, by norm_num⟩
  · simp [isValidAccidentData, isValidSensorData, tenthAccident, Obj.get, List.lookup, typeof]
  · simp [getStatsIEEE, sumFieldIEEE, mathMax, asNumbers, asNumber, jsOr, truthy, tenthAccident,
      tenthDouble, Obj.get, List.lookup, r1, r2, r3, r4]

/-- The `max_alcohol` of a response computed in double arithmetic bounds the
exact mean of the alcohol values. -/
theorem getStatsIEEE_max_ge_mean (A S : List Obj) (r : Response)
    (h : wellTypedAccidents A) (hr : getStatsIEEE (.ok A) (.ok S) = some r) :
    ∃ mx : ℚ, r.body.get "max_alcohol" = .num mx ∧ exactMeanAlcohol A ≤ mx := by
  cases A with
  | nil =>
    simp [getStatsIEEE] at hr
    subst hr
    exact ⟨0, by simp [Body.get, Obj.get, List.lookup], by simp [exactMeanAlcohol]⟩
  | cons a rest =>
    obtain ⟨mA, hmA, -, hA2⟩ := mathMax_orZero "alcohol" a rest (fun b hb => (h b hb).1)
    obtain ⟨mI, hmI, -, -⟩ := mathMax_orZero "impact" a rest (fun b hb => (h b hb).2)
    have hpos : (a :: rest).length > 0 := by simp
    simp only [getStatsIEEE, hpos, if_true, hmA, hmI, Option.bind_eq_bind,
      Option.some_bind] at hr
    obtain ⟨v, -, hv⟩ := Option.bind_eq_some.1 hr
    simp only [Option.some.injEq] at hv
    subst hv
    refine ⟨mA, by simp [Body.get, Obj.get, List.lookup], ?_⟩
    have hle := sum_div_length_le ((a :: rest).map (fieldOrZero "alcohol")) mA
      (by simp)
      (by
        intro x hx
        obtain ⟨b, hb, rfl⟩ := List.mem_map.1 hx
        exact hA2 b hb)
    simpa [exactMeanAlcohol] using hle

/-- C10 (amended): in every response `GET /api/stats` computes from the
accident records (empty or not, a missing alcohol read as 0), `max_alcohol` is
at least the mean of the alcohol values in exact arithmetic; `avg_alcohol`,
that mean in double arithmetic, is at most `max_alcohol` whenever no addition
of the running sum and not the final division is rounded, and so it is in
the fallback snapshot answered when a query fails. -/
theorem avg_alcohol_le_max_alcohol_unrounded
    (accidentsQ sensorsQ : Except String (List Obj))
    (h : ∀ A, accidentsQ = .ok A → wellTypedAccidents A) :
    (∀ A S r, accidentsQ = .ok A → sensorsQ = .ok S →
      getStatsIEEE accidentsQ sensorsQ = some r →
      ∃ mx : ℚ, r.body.get "max_alcohol" = .num mx ∧ exactMeanAlcohol A ≤ mx) ∧
    ((∀ A, accidentsQ = .ok A → meanUnrounded A) →
      ∃ (r : Response) (avg mx : ℚ), getStatsIEEE accidentsQ sensorsQ = some r ∧
        r.status = 200 ∧
        r.body.get "avg_alcohol" = .num avg ∧ r.body.get "max_alcohol" = .num mx ∧
        avg ≤ mx) := by
  constructor
  · intro A S r hA hS hr
    subst hA
    subst hS
    exact getStatsIEEE_max_ge_mean A S r (h A rfl) hr
  · intro hexact
    have heq : getStatsIEEE accidentsQ sensorsQ = getStats accidentsQ sensorsQ := by
      cases accidentsQ with
      | error msg => rfl
      | ok A =>
        cases sensorsQ with
        | error msg => rfl
        | ok S => exact getStatsIEEE_eq_getStats A S (h A rfl) (hexact A rfl)
    rw [heq]
    exact getStats_avg_le_max accidentsQ sensorsQ h

theorem avg_alcohol_le_max_alcohol_unrounded_witness :
    (∀ A, (Except.ok quartersFixture : Except String (List Obj)) = .ok A →
      wellTypedAccidents A) ∧
    (∀ A, (Except.ok quartersFixture : Except String (List Obj)) = .ok A →
      meanUnrounded A) ∧
    ∃ (r : Response) (avg mx : ℚ), getStatsIEEE (.ok quartersFixture) (.ok []) = some r ∧
      r.status = 200 ∧
      r.body.get "avg_alcohol" = .num avg ∧ r.body.get "max_alcohol" = .num mx ∧
      avg ≤ mx :=
  have hwt : ∀ A, (Except.ok quartersFixture : Except String (List Obj)) = .ok A →
      wellTypedAccidents A := by
    intro A hA
    cases hA
    intro a ha
    simp only [quartersFixture, List.mem_cons, List.mem_singleton, List.not_mem_nil,
      or_false] at ha
    rcases ha with rfl | rfl | rfl <;>
      simp [numberOrMissing, Obj.get, List.lookup]
  have hex : ∀ A, (Except.ok quartersFixture : Except String (List Obj)) = .ok A →
      meanUnrounded A := by
    intro A hA
    cases hA
    have e : quartersFixture.map (fieldOrZero "alcohol") = [0.25, 0.5, 0.75] := by
      simp [quartersFixture, fieldOrZero, Obj.get, List.lookup]
    have d1 : roundDouble (0 + 0.25) = some (0 + 0.25) := by decide!
    have d2 : roundDouble (0 + 0.25 + 0.5) = some (0 + 0.25 + 0.5) := by decide!
    have d3 : roundDouble (0 + 0.25 + 0.5 + 0.75) = some (0 + 0.25 + 0.5 + 0.75) := by decide!
    have d4 : roundDouble ([0.25, 0.5, 0.75].sum / ((3 : ℕ) : ℚ)) =
        some ([0.25, 0.5, 0.75].sum / ((3 : ℕ) : ℚ)) := by decide!
    unfold meanUnrounded exactMeanAlcohol
    rw [e]
    exact ⟨⟨d1, d2, d3, trivial⟩, d4⟩
  ⟨hwt, hex,
    (avg_alcohol_le_max_alcohol_unrounded (.ok quartersFixture) (.ok []) hwt).2 hex⟩

/-! Accident ids -/

theorem toString36Aux_eq (fuel : Nat) : ∀ n acc, n < fuel → 0 < n →
    toString36Aux fuel n acc = ((Nat.digits 36 n).reverse.map digitChar36) ++ acc := by
  induction fuel with
  | zero => intro n acc h; omega
  | succ fuel ih =>
    intro n acc hlt hpos
    rw [Nat.digits_def' (by norm_num) hpos]
    unfold toString36Aux
    by_cases h0 : n / 36 = 0
    · simp [h0]
    · have h1 : n / 36 < fuel := by
        have : n / 36 < n := Nat.div_lt_self hpos (by norm_num)
        omega
      simp [h0, ih (n / 36) _ h1 (Nat.pos_of_ne_zero h0)]

theorem toString36_data (n : Nat) :
    (toString36 n).data =
      ((if n = 0 then [0] else Nat.digits 36 n).reverse).map digitChar36 := by
  by_cases h : n = 0
  · subst h
    simp [toString36, toString36Aux]
  · simp [toString36, h, toString36Aux_eq (n + 1) n [] (by omega) (Nat.pos_of_ne_zero h)]

theorem digitChar36_injOn : ∀ d, d < 36 → ∀ e, e < 36 →
    digitChar36 d = digitChar36 e → d = e := by
  decide

theorem map_digitChar36_inj : ∀ l1 l2 : List Nat, (∀ d ∈ l1, d < 36) → (∀ d ∈ l2, d < 36) →
    l1.map digitChar36 = l2.map digitChar36 → l1 = l2 := by
  intro l1
  induction l1 with
  | nil =>
    intro l2 _ _ h
    cases l2 with
    | nil => rfl
    | cons b t => simp at h
  | cons a t ih =>
    intro l2 h1 h2 h
    cases l2 with
    | nil => simp at h
    | cons b t2 =>
      simp only [List.map_cons, List.cons.injEq] at h
      have hab : a = b :=
        digitChar36_injOn a (h1 a (List.mem_cons_self _ _)) b (h2 b (List.mem_cons_self _ _)) h.1
      have ht : t = t2 :=
        ih t2 (fun d hd => h1 d (List.mem_cons_of_mem _ hd))
          (fun d hd => h2 d (List.mem_cons_of_mem _ hd)) h.2
      rw [hab, ht]

theorem digits36_lt (n : Nat) : ∀ d ∈ (if n = 0 then [0] else Nat.digits 36 n).reverse, d < 36 := by
  intro d hd
  rw [List.mem_reverse] at hd
  by_cases h : n = 0
  · simp [h] at hd
    omega
  · simp only [h, if_false] at hd
    exact Nat.digits_lt_base (by norm_num) hd

theorem toString36_injective (n m : Nat) (h : toString36 n = toString36 m) : n = m := by
  have hd : (toString36 n).data = (toString36 m).data := by rw [h]
  rw [toString36_data, toString36_data] at hd
  have hl := map_digitChar36_inj _ _ (digits36_lt n) (digits36_lt m) hd
  have hl2 : (if n = 0 then [0] else Nat.digits 36 n) =
      (if m = 0 then [0] else Nat.digits 36 m) := List.reverse_injective hl
  have hn : Nat.ofDigits 36 (if n = 0 then [0] else Nat.digits 36 n) = n := by
    by_cases h0 : n = 0
    · simp [h0, Nat.ofDigits]
    · simp [h0, Nat.ofDigits_digits]
  have hm : Nat.ofDigits 36 (if m = 0 then [0] else Nat.digits 36 m) = m := by
    by_cases h0 : m = 0
    · simp [h0, Nat.ofDigits]
    · simp [h0, Nat.ofDigits_digits]
  rw [← hn, ← hm, hl2]

theorem accidentId_eq_iff (now1 now2 : Nat) (rand1 rand2 : String)
    (hlen : (toString36 now1).length = (toString36 now2).length) :
    accidentId now1 rand1 = accidentId now2 rand2 ↔
      now1 = now2 ∧ substr rand1 2 5 = substr rand2 2 5 := by
  constructor
  · intro h
    have hd : (toString36 now1).data ++ (substr rand1 2 5).data =
        (toString36 now2).data ++ (substr rand2 2 5).data := by
      have := congrArg String.data h
      simpa [accidentId, String.data_append] using this
    have hl : (toString36 now1).data.length = (toString36 now2).data.length := hlen
    obtain ⟨h1, h2⟩ := List.append_inj hd hl
    exact ⟨toString36_injective _ _ (String.ext h1), String.ext h2⟩
  · rintro ⟨h1, h2⟩
    simp [accidentId, h1, h2]

theorem postAccident_accepted (envKey : Option String) (now : Nat) (randStr : String)
    (req : Request) (st : Store) (h : (postAccident envKey now randStr req st).1.status = 200) :
    (postAccident envKey now randStr req st).1.body.get "id" =
      .str (accidentId now randStr) := by
  unfold postAccident at h ⊢
  by_cases hk : requireApiKey envKey req = true
  · by_cases hv : isValidAccidentData req.body = true
    · cases hf : st.failure with
      | none =>
        simp only [hk, hv, Store.createAccident, hf, Body.get, Obj.get_set_self, if_true,
          Bool.not_true, Bool.false_eq_true, if_false]
        simp [Obj.get, List.lookup]
      | some msg =>
        simp [hk, hv, Store.createAccident, hf, databaseError] at h
    · simp [hk, hv] at h
  · simp [hk, unauthorized] at h

/-- C9 (as stated, refuted): two accepted `POST /api/accident` requests with
identical payloads, handled in the same millisecond with the same random
text, get the same id. -/
theorem accident_ids_collide :
    (postAccident none 1700000000000 "0.4fzyo82mvyr" validRequest emptyStore).1.status = 200 ∧
    (postAccident none 1700000000000 "0.4fzyo82mvyr" validRequest
      (postAccident none 1700000000000 "0.4fzyo82mvyr" validRequest emptyStore).2).1.status
      = 200 ∧
    (postAccident none 1700000000000 "0.4fzyo82mvyr" validRequest emptyStore).1.body.get "id"
      = .str "loyw3v284fzyo" ∧
    (postAccident none 1700000000000 "0.4fzyo82mvyr" validRequest
      (postAccident none 1700000000000 "0.4fzyo82mvyr" validRequest emptyStore).2).1.body.get
      "id" = .str "loyw3v284fzyo" := by
  have hk : requireApiKey none validRequest = true := by
    rw [requireApiKey_iff]
    simp [presentedKey, validRequest, Request.headerVal, jsOr, truthy, API_KEY]
  have hv : isValidAccidentData validRequest.body = true := by
    simp [isValidAccidentData, isValidSensorData, validRequest, samplePayload, Obj.get,
      List.lookup, typeof]
  have hid : accidentId 1700000000000 "0.4fzyo82mvyr" = "loyw3v284fzyo" := by decide
  have h1 : (postAccident none 1700000000000 "0.4fzyo82mvyr" validRequest
      emptyStore).1.status = 200 := by
    simp [postAccident, hk, hv, Store.createAccident, emptyStore]
  have h2 : (postAccident none 1700000000000 "0.4fzyo82mvyr" validRequest
      (postAccident none 1700000000000 "0.4fzyo82mvyr" validRequest emptyStore).2).1.status
      = 200 := by
    simp [postAccident, hk, hv, Store.createAccident, emptyStore]
  refine ⟨h1, h2, ?_, ?_⟩
  · rw [postAccident_accepted _ _ _ _ _ h1, hid]
  · rw [postAccident_accepted _ _ _ _ _ h2, hid]

/-- C9 (amended): for two accepted `POST /api/accident` requests whose
millisecond times have base-36 renderings of the same length, the ids are
the time in base 36 followed by the random suffix, and they are distinct
exactly when the two requests differ in their millisecond time or in their
random suffix. -/
theorem accident_ids_distinct_iff (envKey : Option String) (now1 now2 : Nat)
    (rand1 rand2 : String) (req1 req2 : Request) (st1 st2 : Store)
    (h1 : (postAccident envKey now1 rand1 req1 st1).1.status = 200)
    (h2 : (postAccident envKey now2 rand2 req2 st2).1.status = 200)
    (hlen : (toString36 now1).length = (toString36 now2).length) :
    (postAccident envKey now1 rand1 req1 st1).1.body.get "id" =
      .str (toString36 now1 ++ substr rand1 2 5) ∧
    (postAccident envKey now2 rand2 req2 st2).1.body.get "id" =
      .str (toString36 now2 ++ substr rand2 2 5) ∧
    ((postAccident envKey now1 rand1 req1 st1).1.body.get "id" ≠
        (postAccident envKey now2 rand2 req2 st2).1.body.get "id" ↔
      now1 ≠ now2 ∨ substr rand1 2 5 ≠ substr rand2 2 5) := by
  have e1 := postAccident_accepted envKey now1 rand1 req1 st1 h1
  have e2 := postAccident_accepted envKey now2 rand2 req2 st2 h2
  refine ⟨e1, e2, ?_⟩
  rw [e1, e2]
  have hiff := accidentId_eq_iff now1 now2 rand1 rand2 hlen
  constructor
  · intro hne
    by_contra hcon
    push_neg at hcon
    exact hne (by rw [hiff.2 hcon])
  · intro hdiff heq
    have := hiff.1 (by simpa using heq)
    rcases hdiff with hd | hd
    · exact hd this.1
    · exact hd this.2

theorem accident_ids_distinct_iff_witness :
    (postAccident none 1700000000000 "0.4fzyo82mvyr" validRequest emptyStore).1.status = 200 ∧
    (postAccident none 1700000000001 "0.4fzyo82mvyr" validRequest
      (postAccident none 1700000000000 "0.4fzyo82mvyr" validRequest emptyStore).2).1.status
      = 200 ∧
    (toString36 1700000000000).length = (toString36 1700000000001).length ∧
    (postAccident none 1700000000000 "0.4fzyo82mvyr" validRequest emptyStore).1.body.get "id" ≠
      (postAccident none 1700000000001 "0.4fzyo82mvyr" validRequest
        (postAccident none 1700000000000 "0.4fzyo82mvyr" validRequest
          emptyStore).2).1.body.get "id" := by
  have hk : requireApiKey none validRequest = true := by
    rw [requireApiKey_iff]
    simp [presentedKey, validRequest, Request.headerVal, jsOr, truthy, API_KEY]
  have hv : isValidAccidentData validRequest.body = true := by
    simp [isValidAccidentData, isValidSensorData, validRequest, samplePayload, Obj.get,
      List.lookup, typeof]
  have h1 : (postAccident none 1700000000000 "0.4fzyo82mvyr" validRequest
      emptyStore).1.status = 200 := by
    simp [postAccident, hk, hv, Store.createAccident, emptyStore]
  have h2 : (postAccident none 1700000000001 "0.4fzyo82mvyr" validRequest
      (postAccident none 1700000000000 "0.4fzyo82mvyr" validRequest emptyStore).2).1.status
      = 200 := by
    simp [postAccident, hk, hv, Store.createAccident, emptyStore]
  have hlen : (toString36 1700000000000).length = (toString36 1700000000001).length := by
    decide
  exact ⟨h1, h2, hlen,
    (accident_ids_distinct_iff none 1700000000000 1700000000001 "0.4fzyo82mvyr"
      "0.4fzyo82mvyr" validRequest validRequest emptyStore _ h1 h2 hlen).2.2.2
      (Or.inl (by decide))⟩

end SafeDrive
